import Mathlib

/-!
Shallow embedding of the CalReal deal-scoring and rent-cap modules
(the deal-score engine and the AB 1482 rent-cap helper).

Numbers: the source is JavaScript, so arithmetic is IEEE-754 double
arithmetic.  We model a JavaScript number as an exact rational plus the
special values Infinity, -Infinity and NaN (type JSNum below).  Binary
rounding is abstracted away (every constant in the source is treated as
the exact decimal it denotes) and the sign of zero is identified with +0;
no claim under consideration depends on either abstraction.  Divisions,
Math.min / Math.max and comparisons follow the ECMAScript semantics on
these values: any comparison involving NaN is false, Math.min / Math.max
return NaN whenever an argument is NaN, and 0/0 is NaN while x/0 for
x different from 0 is a signed infinity.

The ambient wall-clock year read by the source (new Date().getFullYear())
is threaded through every function as an explicit currentYear parameter,
as the spec itself directs for reproducible evaluation.

Explanation / reasoning strings in the source interpolate numbers through
toFixed; the numeric interpolation is abstracted away and only the fixed
template text is kept, since no claim depends on the content of these
strings (only on the count and order of breakdown entries and exemption
reasons).
-/

/-- Model of a JavaScript IEEE-754 number: an exact rational, or one of
the special values Infinity, -Infinity, NaN. -/
inductive JSNum where
  | fin (q : ℚ)
  | pinf
  | ninf
  | nan
  deriving DecidableEq

/-- JavaScript addition on JSNum values. -/
def JSNum.add : JSNum → JSNum → JSNum
  | .nan, _ => .nan
  | _, .nan => .nan
  | .pinf, .ninf => .nan
  | .ninf, .pinf => .nan
  | .pinf, _ => .pinf
  | _, .pinf => .pinf
  | .ninf, _ => .ninf
  | _, .ninf => .ninf
  | .fin a, .fin b => .fin (a + b)

/-- JavaScript multiplication on JSNum values. -/
def JSNum.mul : JSNum → JSNum → JSNum
  | .nan, _ => .nan
  | _, .nan => .nan
  | .pinf, .pinf => .pinf
  | .pinf, .ninf => .ninf
  | .ninf, .pinf => .ninf
  | .ninf, .ninf => .pinf
  | .pinf, .fin b => if b = 0 then .nan else if 0 < b then .pinf else .ninf
  | .fin a, .pinf => if a = 0 then .nan else if 0 < a then .pinf else .ninf
  | .ninf, .fin b => if b = 0 then .nan else if 0 < b then .ninf else .pinf
  | .fin a, .ninf => if a = 0 then .nan else if 0 < a then .ninf else .pinf
  | .fin a, .fin b => .fin (a * b)

/-- JavaScript division on JSNum values (0/0 is NaN, x/0 is a signed
infinity for x different from 0; zero is treated as +0). -/
def JSNum.div : JSNum → JSNum → JSNum
  | .nan, _ => .nan
  | _, .nan => .nan
  | .pinf, .pinf => .nan
  | .pinf, .ninf => .nan
  | .ninf, .pinf => .nan
  | .ninf, .ninf => .nan
  | .pinf, .fin b => if b < 0 then .ninf else .pinf
  | .ninf, .fin b => if b < 0 then .pinf else .ninf
  | .fin _, .pinf => .fin 0
  | .fin _, .ninf => .fin 0
  | .fin a, .fin b =>
      if b = 0 then (if a = 0 then .nan else if 0 < a then .pinf else .ninf)
      else .fin (a / b)

/-- JavaScript comparison a <= b (false whenever an operand is NaN). -/
def JSNum.le : JSNum → JSNum → Bool
  | .nan, _ => false
  | _, .nan => false
  | .ninf, _ => true
  | _, .ninf => false
  | _, .pinf => true
  | .pinf, _ => false
  | .fin a, .fin b => decide (a ≤ b)

/-- JavaScript comparison a < b (false whenever an operand is NaN). -/
def JSNum.lt : JSNum → JSNum → Bool
  | .nan, _ => false
  | _, .nan => false
  | .ninf, .ninf => false
  | .ninf, _ => true
  | _, .ninf => false
  | .pinf, _ => false
  | _, .pinf => true
  | .fin a, .fin b => decide (a < b)

/-- JavaScript comparison a >= b. -/
def JSNum.ge (x y : JSNum) : Bool := JSNum.le y x

/-- JavaScript comparison a > b. -/
def JSNum.gt (x y : JSNum) : Bool := JSNum.lt y x

/-- JavaScript Math.min (NaN if either argument is NaN). -/
def JSNum.min : JSNum → JSNum → JSNum
  | .nan, _ => .nan
  | _, .nan => .nan
  | .ninf, _ => .ninf
  | _, .ninf => .ninf
  | .pinf, y => y
  | x, .pinf => x
  | .fin a, .fin b => .fin (Min.min a b)

/-- JavaScript Math.max (NaN if either argument is NaN). -/
def JSNum.max : JSNum → JSNum → JSNum
  | .nan, _ => .nan
  | _, .nan => .nan
  | .pinf, _ => .pinf
  | _, .pinf => .pinf
  | .ninf, y => y
  | x, .ninf => x
  | .fin a, .fin b => .fin (Max.max a b)

/-! ## Data model (deal-score engine) -/

/-- Property type tag of PropertyMetrics. -/
inductive PropertyType where
  | single_family
  | condo
  | townhouse
  | multi_family
  deriving DecidableEq

/-- Input record PropertyMetrics. -/
structure PropertyMetrics where
  price : ℚ
  sqft : ℚ
  beds : ℚ
  baths : ℚ
  yearBuilt : ℤ
  propertyType : PropertyType
  latitude : ℚ
  longitude : ℚ
  deriving DecidableEq

/-- Input record NeighborhoodData; the six optional market signals are
absent-or-present (JavaScript: possibly undefined). -/
structure NeighborhoodData where
  medianPricePerSqft : ℚ
  medianPrice : ℚ
  avgSqft : ℚ
  avgBeds : ℚ
  avgBaths : ℚ
  avgYearBuilt : ℚ
  priceAppreciationRate : Option ℚ
  rentalYield : Option ℚ
  walkScore : Option ℚ
  transitScore : Option ℚ
  crimeRate : Option ℚ
  schoolRating : Option ℚ
  deriving DecidableEq

/-! ## Rent-cap helper (AB 1482 module) -/

/-- Result record of checkRentCapEligibility. -/
structure RentCapInfo where
  isEligible : Bool
  maxIncreasePercentage : ℚ
  currentYear : ℤ
  yearBuilt : ℤ
  propertyAge : ℤ
  exemptionReasons : List String
  nextYearCap : ℚ
  deriving DecidableEq

/-- Module constant CURRENT_INFLATION_RATE (example 2024 CPI figure). -/
def CURRENT_INFLATION_RATE : ℚ := 3.4

/-- checkRentCapEligibility from the rent-cap helper.  The wall-clock
year is the explicit currentYear parameter. -/
def checkRentCapEligibility (currentYear yearBuilt : ℤ) : RentCapInfo :=
  let propertyAge := currentYear - yearBuilt
  let isEligible : Bool := decide (propertyAge ≥ 15)
  let exemptionReasons : List String :=
    if isEligible then []
    else ["Property is only " ++ toString propertyAge ++ " years old (must be 15+ years)"]
  let maxIncreasePercentage : ℚ := if isEligible then 5.0 + CURRENT_INFLATION_RATE else 0
  let nextYearCap : ℚ := if isEligible then 5.0 + CURRENT_INFLATION_RATE * 0.9 else 0
  { isEligible := isEligible
    maxIncreasePercentage := maxIncreasePercentage
    currentYear := currentYear
    yearBuilt := yearBuilt
    propertyAge := propertyAge
    exemptionReasons := exemptionReasons
    nextYearCap := nextYearCap }

/-- Result record of calculateMaxRentIncrease. -/
structure MaxRentIncreaseResult where
  maxIncrease : ℚ
  maxNewRent : ℚ
  increasePercentage : ℚ
  isEligible : Bool
  deriving DecidableEq

/-- calculateMaxRentIncrease from the rent-cap helper.  The JavaScript
default `inflationRate || CURRENT_INFLATION_RATE` falls back to the
constant when the argument is absent OR equal to 0 (0 is falsy). -/
def calculateMaxRentIncrease (currentYear : ℤ) (currentRent : ℚ) (yearBuilt : ℤ)
    (inflationRate : Option ℚ) : MaxRentIncreaseResult :=
  let rentCapInfo := checkRentCapEligibility currentYear yearBuilt
  let inflation : ℚ :=
    match inflationRate with
    | some r => if r = 0 then CURRENT_INFLATION_RATE else r
    | none => CURRENT_INFLATION_RATE
  if !rentCapInfo.isEligible then
    { maxIncrease := 0
      maxNewRent := currentRent
      increasePercentage := 0
      isEligible := false }
  else
    let increasePercentage := 5.0 + inflation
    let maxIncrease := currentRent * (increasePercentage / 100)
    let maxNewRent := currentRent + maxIncrease
    { maxIncrease := maxIncrease
      maxNewRent := maxNewRent
      increasePercentage := increasePercentage
      isEligible := true }

/-- Result record of calculateRentStabilizationBoost.  boostScore is a
JSNum because the source computes annualValue / currentMarketRent, which
is NaN when the market rent is 0. -/
structure RentStabilizationBoost where
  boostScore : JSNum
  annualValue : ℚ
  fiveYearValue : ℚ
  reasoning : String
  deriving DecidableEq

/-- Local constant marketVolatilityPremium of
calculateRentStabilizationBoost (8 percent annual market volatility
assumption), lifted to module level so theorems can name it. -/
def marketVolatilityPremium : ℚ := 0.08

/-- calculateRentStabilizationBoost from the rent-cap helper.  The third
parameter (potentialRentIncrease) is accepted but never read by the
source body. -/
def calculateRentStabilizationBoost (currentYear yearBuilt : ℤ)
    (currentMarketRent potentialRentIncrease : ℚ) : RentStabilizationBoost :=
  let rentCapInfo := checkRentCapEligibility currentYear yearBuilt
  if !rentCapInfo.isEligible then
    { boostScore := .fin 0
      annualValue := 0
      fiveYearValue := 0
      reasoning := "Property not eligible for rent stabilization benefits" }
  else
    let stabilizedIncrease := rentCapInfo.maxIncreasePercentage / 100
    let volatilityBenefit := marketVolatilityPremium - stabilizedIncrease
    let annualValue := currentMarketRent * volatilityBenefit
    let fiveYearValue := annualValue * 5
    let boostScore :=
      JSNum.min (.fin 20)
        (JSNum.max (.fin 0)
          (JSNum.mul (JSNum.div (.fin annualValue) (.fin currentMarketRent)) (.fin 100)))
    { boostScore := boostScore
      annualValue := annualValue
      fiveYearValue := fiveYearValue
      reasoning := "Rent stabilization provides predictable annual increases vs estimated market volatility" }

/-! ## Deal-score engine -/

/-- One entry of the breakdown sequence in DealScoreBreakdown. -/
structure BreakdownEntry where
  component : String
  score : JSNum
  maxScore : ℚ
  explanation : String
  deriving DecidableEq

/-- Output record DealScoreBreakdown.  totalScore and the
rent-stabilization bonus are JSNum because the NaN produced by a zero
estimated market rent propagates into them. -/
structure DealScoreBreakdown where
  totalScore : JSNum
  priceAdvantage : ℚ
  sizeAdvantage : ℚ
  ageAdvantage : ℚ
  rentStabilizationBonus : JSNum
  locationBonus : ℚ
  marketTimingBonus : ℚ
  breakdown : List BreakdownEntry
  deriving DecidableEq

/-- The if-chain of calculatePriceAdvantage as a function of the computed
price ratio (every branch returns a constant, so the result is a plain
rational even for an infinite or NaN ratio). -/
def priceAdvantageStep (priceRatio : JSNum) : ℚ :=
  if priceRatio.le (.fin 0.8) then 40
  else if priceRatio.le (.fin 0.9) then 35
  else if priceRatio.le (.fin 0.95) then 30
  else if priceRatio.le (.fin 1.0) then 25
  else if priceRatio.le (.fin 1.05) then 20
  else if priceRatio.le (.fin 1.1) then 15
  else if priceRatio.le (.fin 1.2) then 10
  else 5

/-- calculatePriceAdvantage from the deal-score engine. -/
def calculatePriceAdvantage (property : PropertyMetrics) (neighborhood : NeighborhoodData) : ℚ :=
  let propertyPricePerSqft := JSNum.div (.fin property.price) (.fin property.sqft)
  let priceRatio := JSNum.div propertyPricePerSqft (.fin neighborhood.medianPricePerSqft)
  priceAdvantageStep priceRatio

/-- calculateSizeAdvantage from the deal-score engine.  The two ratios
are JSNum values: with baths = 0 (and beds positive) the bed/bath ratio
is +Infinity, so the `> 2` comparison is true and the layout term
subtracts 1, exactly as IEEE comparison semantics dictate. -/
def calculateSizeAdvantage (property : PropertyMetrics) (neighborhood : NeighborhoodData) : ℚ :=
  let score : ℚ := 7.5
  let sizeRatio := JSNum.div (.fin property.sqft) (.fin neighborhood.avgSqft)
  let score :=
    if sizeRatio.ge (.fin 1.2) then score + 4
    else if sizeRatio.ge (.fin 1.1) then score + 3
    else if sizeRatio.ge (.fin 1.0) then score + 2
    else if sizeRatio.ge (.fin 0.9) then score + 1
    else score - 2
  let bedBathRatio := JSNum.div (.fin property.beds) (.fin property.baths)
  let score :=
    if bedBathRatio.ge (.fin 1) && bedBathRatio.le (.fin 2) then score + 2
    else if bedBathRatio.gt (.fin 2) then score - 1
    else score
  let score :=
    match property.propertyType with
    | .single_family => score + 2
    | .townhouse => score + 1
    | _ => score
  Min.min 15 (Max.max 0 score)

/-- calculateAgeAdvantage from the deal-score engine. -/
def calculateAgeAdvantage (currentYear : ℤ) (property : PropertyMetrics)
    (neighborhood : NeighborhoodData) : ℚ :=
  let propertyAge : ℚ := (currentYear : ℚ) - (property.yearBuilt : ℚ)
  let neighborhoodAge : ℚ := (currentYear : ℚ) - neighborhood.avgYearBuilt
  let score : ℚ := 10
  let score :=
    if propertyAge > neighborhoodAge + 20 then score + 5
    else if propertyAge > neighborhoodAge + 10 then score + 3
    else if propertyAge > neighborhoodAge - 5 then score + 1
    else score - 2
  let score :=
    if propertyAge ≥ 50 then score + 3
    else if propertyAge ≥ 30 then score + 2
    else score
  Min.min 15 (Max.max 0 score)

/-- calculateRentStabilizationBonusValue from the deal-score engine.
The neighborhood parameter is accepted but unused by the source body. -/
def calculateRentStabilizationBonusValue (currentYear : ℤ) (property : PropertyMetrics)
    (neighborhood : NeighborhoodData) : JSNum :=
  let propertyAge := currentYear - property.yearBuilt
  if propertyAge < 15 then .fin 0
  else
    let estimatedMarketRent : ℚ := property.price * 0.008 / 12
    let rentStabilizationBoost :=
      calculateRentStabilizationBoost currentYear property.yearBuilt
        estimatedMarketRent (0.05 + 0.034)
    JSNum.min (.fin 10) (JSNum.div rentStabilizationBoost.boostScore (.fin 2))

/-- The accumulated score of calculateLocationBonus before the final
clamp.  Each `if (neighborhood.field)` in the source is a JavaScript
truthiness test: an absent field AND a present value of 0 both skip the
whole block, so a present 0 contributes no adjustment. -/
def locationScoreRaw (neighborhood : NeighborhoodData) : ℚ :=
  let score : ℚ := 5
  let score := score +
    (match neighborhood.walkScore with
      | some w => if w = 0 then 0 else if w ≥ 90 then 3 else if w ≥ 70 then 2 else if w ≥ 50 then 1 else 0
      | none => 0)
  let score := score +
    (match neighborhood.schoolRating with
      | some s => if s = 0 then 0 else if s ≥ 8 then 2 else if s ≥ 6 then 1 else 0
      | none => 0)
  let score := score +
    (match neighborhood.crimeRate with
      | some c => if c = 0 then 0 else if c ≤ 20 then 2 else if c ≤ 40 then 1 else 0
      | none => 0)
  let score := score +
    (match neighborhood.transitScore with
      | some t => if t = 0 then 0 else if t ≥ 70 then 1 else 0
      | none => 0)
  score

/-- calculateLocationBonus from the deal-score engine. -/
def calculateLocationBonus (neighborhood : NeighborhoodData) : ℚ :=
  Min.min 10 (Max.max 0 (locationScoreRaw neighborhood))

/-- calculateMarketTimingBonus from the deal-score engine (same
truthiness handling of the optional fields as the location bonus). -/
def calculateMarketTimingBonus (neighborhood : NeighborhoodData) : ℚ :=
  let score : ℚ := 5
  let score := score +
    (match neighborhood.priceAppreciationRate with
      | some r => if r = 0 then 0 else if r ≥ 8 then 3 else if r ≥ 5 then 2 else if r ≥ 3 then 1 else if r < 0 then -2 else 0
      | none => 0)
  let score := score +
    (match neighborhood.rentalYield with
      | some y => if y = 0 then 0 else if y ≥ 6 then 2 else if y ≥ 4 then 1 else 0
      | none => 0)
  Min.min 10 (Max.max 0 score)

/-- calculateDealScore from the deal-score engine.  nearbyProperties is
accepted but unused by the source body. -/
def calculateDealScore (currentYear : ℤ) (property : PropertyMetrics)
    (neighborhood : NeighborhoodData)
    (nearbyProperties : Option (List PropertyMetrics)) : DealScoreBreakdown :=
  let priceAdvantage := calculatePriceAdvantage property neighborhood
  let sizeAdvantage := calculateSizeAdvantage property neighborhood
  let ageAdvantage := calculateAgeAdvantage currentYear property neighborhood
  let rentStabilizationBonus := calculateRentStabilizationBonusValue currentYear property neighborhood
  let locationBonus := calculateLocationBonus neighborhood
  let marketTimingBonus := calculateMarketTimingBonus neighborhood
  let breakdown : List BreakdownEntry :=
    [ { component := "Price Advantage"
        score := .fin priceAdvantage
        maxScore := 40
        explanation := "Property price per sqft vs neighborhood avg price per sqft" },
      { component := "Size & Layout"
        score := .fin sizeAdvantage
        maxScore := 15
        explanation := "Beds, baths and sqft vs neighborhood averages" },
      { component := "Age & Rent Stabilization"
        score := (JSNum.fin ageAdvantage).add rentStabilizationBonus
        maxScore := 25
        explanation := "Year built and rent stabilization bonus points" },
      { component := "Location & Amenities"
        score := .fin locationBonus
        maxScore := 10
        explanation := "Walk score and schools" },
      { component := "Market Timing"
        score := .fin marketTimingBonus
        maxScore := 10
        explanation := "Market appreciation and rental yield" } ]
  let totalScore :=
    ((((JSNum.fin priceAdvantage).add (.fin sizeAdvantage)).add
        ((JSNum.fin ageAdvantage).add rentStabilizationBonus)).add
      (.fin locationBonus)).add (.fin marketTimingBonus)
  { totalScore := JSNum.min (.fin 100) (JSNum.max (.fin 0) totalScore)
    priceAdvantage := priceAdvantage
    sizeAdvantage := sizeAdvantage
    ageAdvantage := ageAdvantage
    rentStabilizationBonus := rentStabilizationBonus
    locationBonus := locationBonus
    marketTimingBonus := marketTimingBonus
    breakdown := breakdown }

/-! ## Concrete inputs used by counterexamples and witnesses -/

/-- A representative property (the end-to-end example of the spec:
price 800000, sqft 1000, built 1960). -/
def baseProperty : PropertyMetrics :=
  { price := 800000, sqft := 1000, beds := 3, baths := 2, yearBuilt := 1960,
    propertyType := .condo, latitude := 0, longitude := 0 }

/-- A representative neighborhood with every optional market signal
absent. -/
def baseNeighborhood : NeighborhoodData :=
  { medianPricePerSqft := 1000, medianPrice := 800000, avgSqft := 1000,
    avgBeds := 3, avgBaths := 2, avgYearBuilt := 1980,
    priceAppreciationRate := none, rentalYield := none, walkScore := none,
    transitScore := none, crimeRate := none, schoolRating := none }

/-! ## Helper lemmas -/

theorem JSNum.add_fin (a b : ℚ) : (JSNum.fin a).add (.fin b) = .fin (a + b) := rfl

theorem JSNum.mul_fin (a b : ℚ) : (JSNum.fin a).mul (.fin b) = .fin (a * b) := rfl

theorem JSNum.min_fin (a b : ℚ) : JSNum.min (.fin a) (.fin b) = .fin (Min.min a b) := rfl

theorem JSNum.max_fin (a b : ℚ) : JSNum.max (.fin a) (.fin b) = .fin (Max.max a b) := rfl

theorem JSNum.div_fin (a b : ℚ) (hb : b ≠ 0) :
    JSNum.div (.fin a) (.fin b) = .fin (a / b) := by
  simp [JSNum.div, hb]

theorem JSNum.div_fin_zero (a : ℚ) :
    JSNum.div (.fin a) (.fin 0) =
      if a = 0 then .nan else if 0 < a then .pinf else .ninf := rfl

theorem JSNum.div_nan_left (y : JSNum) : JSNum.div .nan y = .nan := by
  cases y <;> rfl

theorem JSNum.mul_nan_left (y : JSNum) : JSNum.mul .nan y = .nan := by
  cases y <;> rfl

theorem JSNum.add_nan_left (y : JSNum) : JSNum.add .nan y = .nan := by
  cases y <;> rfl

theorem JSNum.add_nan_right (x : JSNum) : JSNum.add x .nan = .nan := by
  cases x <;> rfl

theorem JSNum.max_nan_right (x : JSNum) : JSNum.max x .nan = .nan := by
  cases x <;> rfl

theorem JSNum.min_nan_right (x : JSNum) : JSNum.min x .nan = .nan := by
  cases x <;> rfl

theorem JSNum.le_fin_fin (a b : ℚ) : (JSNum.fin a).le (.fin b) = decide (a ≤ b) := rfl

theorem JSNum.lt_fin_fin (a b : ℚ) : (JSNum.fin a).lt (.fin b) = decide (a < b) := rfl

theorem JSNum.le_fin_pinf (a : ℚ) : (JSNum.fin a).le .pinf = true := rfl

theorem JSNum.le_pinf_fin (a : ℚ) : JSNum.pinf.le (.fin a) = false := rfl

theorem JSNum.lt_fin_pinf (a : ℚ) : (JSNum.fin a).lt .pinf = true := rfl

theorem checkRentCap_isEligible (cy yb : ℤ) :
    (checkRentCapEligibility cy yb).isEligible = decide (cy - yb ≥ 15) := rfl

theorem checkRentCap_maxIncrease (cy yb : ℤ) :
    (checkRentCapEligibility cy yb).maxIncreasePercentage =
      if decide (cy - yb ≥ 15) then 5.0 + CURRENT_INFLATION_RATE else 0 := rfl

theorem checkRentCap_reasons (cy yb : ℤ) :
    (checkRentCapEligibility cy yb).exemptionReasons =
      if decide (cy - yb ≥ 15) then []
      else ["Property is only " ++ toString (cy - yb) ++ " years old (must be 15+ years)"] := rfl

/-- The characteristic clamp shape Math.min(hi, Math.max(0, s)) always
lands in [0, hi]. -/
theorem clamp_nonneg_le (hi s : ℚ) (h : 0 ≤ hi) :
    0 ≤ Min.min hi (Max.max 0 s) ∧ Min.min hi (Max.max 0 s) ≤ hi :=
  ⟨le_min h (le_max_left 0 s), min_le_left hi _⟩

/-- The price-advantage if-chain of the source, re-expressed over a plain
rational ratio. -/
theorem priceAdvantageStep_fin (r : ℚ) :
    priceAdvantageStep (.fin r) =
      if r ≤ 0.8 then 40 else if r ≤ 0.9 then 35 else if r ≤ 0.95 then 30
      else if r ≤ 1.0 then 25 else if r ≤ 1.05 then 20 else if r ≤ 1.1 then 15
      else if r ≤ 1.2 then 10 else 5 := by
  simp [priceAdvantageStep, JSNum.le]

theorem priceAdvantageStep_bounds (x : JSNum) :
    0 ≤ priceAdvantageStep x ∧ priceAdvantageStep x ≤ 40 := by
  unfold priceAdvantageStep
  split_ifs <;> norm_num

theorem sizeAdvantage_bounds (p : PropertyMetrics) (n : NeighborhoodData) :
    0 ≤ calculateSizeAdvantage p n ∧ calculateSizeAdvantage p n ≤ 15 := by
  unfold calculateSizeAdvantage
  exact clamp_nonneg_le 15 _ (by norm_num)

theorem ageAdvantage_bounds (cy : ℤ) (p : PropertyMetrics) (n : NeighborhoodData) :
    0 ≤ calculateAgeAdvantage cy p n ∧ calculateAgeAdvantage cy p n ≤ 15 := by
  unfold calculateAgeAdvantage
  exact clamp_nonneg_le 15 _ (by norm_num)

theorem locationBonus_bounds (n : NeighborhoodData) :
    0 ≤ calculateLocationBonus n ∧ calculateLocationBonus n ≤ 10 := by
  unfold calculateLocationBonus
  exact clamp_nonneg_le 10 _ (by norm_num)

theorem marketTimingBonus_bounds (n : NeighborhoodData) :
    0 ≤ calculateMarketTimingBonus n ∧ calculateMarketTimingBonus n ≤ 10 := by
  unfold calculateMarketTimingBonus
  exact clamp_nonneg_le 10 _ (by norm_num)

/-- With a nonzero market rent the ratio annualValue / marketRent cancels
to the (negative) volatility benefit, so the clamped boost score is the
finite value 0, for eligible and ineligible properties alike. -/
theorem boost_zero_of_rent_ne (cy yb : ℤ) (rent rate : ℚ) (h : rent ≠ 0) :
    (calculateRentStabilizationBoost cy yb rent rate).boostScore = .fin 0 := by
  simp only [calculateRentStabilizationBoost]
  split
  · rfl
  next hcond =>
    have h15 : cy - yb ≥ 15 := by
      rcases Decidable.em (cy - yb ≥ 15) with h15 | h15
      · exact h15
      · exact absurd (by simp [checkRentCap_isEligible, h15]) hcond
    have hd : decide (cy - yb ≥ 15) = true := decide_eq_true h15
    dsimp only
    rw [checkRentCap_maxIncrease, hd, if_pos rfl]
    rw [JSNum.div_fin _ _ h, mul_div_cancel_left₀ _ h, JSNum.mul_fin, JSNum.max_fin,
      JSNum.min_fin]
    norm_num [marketVolatilityPremium, CURRENT_INFLATION_RATE, min_def, max_def]

/-- With a nonzero price the estimated market rent is nonzero, so the
deal-score rent-stabilization bonus is the finite value 0. -/
theorem bonusValue_zero_of_price_ne (cy : ℤ) (p : PropertyMetrics) (n : NeighborhoodData)
    (hp : p.price ≠ 0) :
    calculateRentStabilizationBonusValue cy p n = .fin 0 := by
  simp only [calculateRentStabilizationBonusValue]
  by_cases hage : cy - p.yearBuilt < 15
  · rw [if_pos hage]
  · have hrent : p.price * 0.008 / 12 ≠ 0 :=
      div_ne_zero (mul_ne_zero hp (by norm_num)) (by norm_num)
    rw [if_neg hage, boost_zero_of_rent_ne _ _ _ _ hrent,
      JSNum.div_fin _ _ (by norm_num : (2 : ℚ) ≠ 0), JSNum.min_fin]
    norm_num [min_def]

/-! ## Claims -/

set_option maxHeartbeats 1600000 in
/-- C2: the price-advantage sub-score is a pure step function of the
price ratio, monotonically non-increasing in the ratio, with buckets
inclusive on their upper bound: ratio at most 0.80 gives 40, then 35, 30,
25, 20, 15, 10 on the successive buckets and 5 beyond 1.20; in particular
a ratio of exactly 0.80 gives 40, and calculatePriceAdvantage is exactly
this step function applied to (price / sqft) / medianPricePerSqft. -/
theorem C2_price_advantage_step_function :
    (∀ r₁ r₂ : ℚ, r₁ ≤ r₂ →
      priceAdvantageStep (.fin r₂) ≤ priceAdvantageStep (.fin r₁)) ∧
    (∀ r : ℚ,
      (r ≤ 0.8 → priceAdvantageStep (.fin r) = 40) ∧
      (0.8 < r → r ≤ 0.9 → priceAdvantageStep (.fin r) = 35) ∧
      (0.9 < r → r ≤ 0.95 → priceAdvantageStep (.fin r) = 30) ∧
      (0.95 < r → r ≤ 1.0 → priceAdvantageStep (.fin r) = 25) ∧
      (1.0 < r → r ≤ 1.05 → priceAdvantageStep (.fin r) = 20) ∧
      (1.05 < r → r ≤ 1.1 → priceAdvantageStep (.fin r) = 15) ∧
      (1.1 < r → r ≤ 1.2 → priceAdvantageStep (.fin r) = 10) ∧
      (1.2 < r → priceAdvantageStep (.fin r) = 5)) ∧
    priceAdvantageStep (.fin 0.8) = 40 ∧
    (∀ (p : PropertyMetrics) (n : NeighborhoodData),
      calculatePriceAdvantage p n =
        priceAdvantageStep
          (JSNum.div (JSNum.div (.fin p.price) (.fin p.sqft)) (.fin n.medianPricePerSqft))) := by
  refine ⟨?_, ?_, ?_, fun p n => rfl⟩
  · intro r₁ r₂ h
    rw [priceAdvantageStep_fin, priceAdvantageStep_fin]
    split_ifs <;> first | rfl | linarith
  · intro r
    refine ⟨?_, ?_, ?_, ?_, ?_, ?_, ?_, ?_⟩ <;>
      · intros
        rw [priceAdvantageStep_fin]
        split_ifs <;> first | rfl | linarith
  · rw [priceAdvantageStep_fin]
    norm_num

theorem C2_witness :
    priceAdvantageStep (.fin 0.9) ≤ priceAdvantageStep (.fin 0.8) ∧
    priceAdvantageStep (.fin 0.81) = 35 :=
  ⟨C2_price_advantage_step_function.1 0.8 0.9 (by norm_num),
   (C2_price_advantage_step_function.2.1 0.81).2.1 (by norm_num) (by norm_num)⟩

/-- C3: checkRentCapEligibility reports eligible iff the property age
currentYear - yearBuilt is at least 15; age exactly 14 is ineligible, age
exactly 15 is eligible, and an ineligible result carries exactly one
exemption-reason string. -/
theorem C3_rent_cap_eligibility_boundary :
    ∀ currentYear yearBuilt : ℤ,
      ((checkRentCapEligibility currentYear yearBuilt).isEligible = true ↔
        15 ≤ currentYear - yearBuilt) ∧
      (currentYear - yearBuilt = 14 →
        (checkRentCapEligibility currentYear yearBuilt).isEligible = false) ∧
      (currentYear - yearBuilt = 15 →
        (checkRentCapEligibility currentYear yearBuilt).isEligible = true) ∧
      ((checkRentCapEligibility currentYear yearBuilt).isEligible = false →
        (checkRentCapEligibility currentYear yearBuilt).exemptionReasons.length = 1) := by
  intro cy yb
  refine ⟨?_, ?_, ?_, ?_⟩
  · rw [checkRentCap_isEligible]
    simp [ge_iff_le]
  · intro h
    rw [checkRentCap_isEligible]
    simp only [decide_eq_false_iff_not]
    omega
  · intro h
    rw [checkRentCap_isEligible]
    simp only [decide_eq_true_eq]
    omega
  · intro h
    rw [checkRentCap_isEligible] at h
    simp only [decide_eq_false_iff_not] at h
    rw [checkRentCap_reasons]
    simp [h]

theorem C3_witness :
    (checkRentCapEligibility 2024 2010).isEligible = false ∧
    (checkRentCapEligibility 2024 2010).exemptionReasons.length = 1 ∧
    (checkRentCapEligibility 2024 2009).isEligible = true :=
  ⟨(C3_rent_cap_eligibility_boundary 2024 2010).2.1 (by decide),
   (C3_rent_cap_eligibility_boundary 2024 2010).2.2.2
     ((C3_rent_cap_eligibility_boundary 2024 2010).2.1 (by decide)),
   (C3_rent_cap_eligibility_boundary 2024 2009).2.2.1 (by decide)⟩

/-- C4: for a property younger than 15 years, calculateMaxRentIncrease
returns zero increase figures, isEligible false and an unchanged
maxNewRent, for every caller-supplied inflation rate (or none). -/
theorem C4_ineligible_zero_increase (currentYear : ℤ) (currentRent : ℚ) (yearBuilt : ℤ)
    (inflationRate : Option ℚ) (h : currentYear - yearBuilt < 15) :
    calculateMaxRentIncrease currentYear currentRent yearBuilt inflationRate =
      { maxIncrease := 0, maxNewRent := currentRent, increasePercentage := 0,
        isEligible := false } := by
  have hne : ¬ (currentYear - yearBuilt ≥ 15) := by omega
  simp [calculateMaxRentIncrease, checkRentCap_isEligible, hne]

theorem C4_witness :
    calculateMaxRentIncrease 2024 1000 2015 (some 2) =
      { maxIncrease := 0, maxNewRent := 1000, increasePercentage := 0,
        isEligible := false } :=
  C4_ineligible_zero_increase 2024 1000 2015 (some 2) (by decide)

/-- C1 counterexample: at price = 0 (property otherwise 15+ years old)
the estimated market rent is 0, annualValue / marketRent is 0/0 = NaN,
and Math.max / Math.min propagate the NaN into the rent-stabilization
bonus and the total score, so the claim "totalScore lies in [0,100] for
every property and neighborhood input" fails at this input. -/
theorem C1_counterexample :
    (calculateDealScore 2024 { baseProperty with price := 0 } baseNeighborhood none).totalScore
        = JSNum.nan ∧
    (calculateDealScore 2024 { baseProperty with price := 0 } baseNeighborhood none).rentStabilizationBonus
        = JSNum.nan ∧
    ¬ ∃ q : ℚ,
        (calculateDealScore 2024 { baseProperty with price := 0 } baseNeighborhood none).totalScore
          = .fin q ∧ 0 ≤ q ∧ q ≤ 100 := by
  have hrsb0 : calculateRentStabilizationBonusValue 2024 { baseProperty with price := 0 }
      baseNeighborhood = JSNum.nan := by
    norm_num [calculateRentStabilizationBonusValue, calculateRentStabilizationBoost,
      checkRentCap_isEligible, checkRentCap_maxIncrease, baseProperty,
      JSNum.div_fin_zero, JSNum.mul_nan_left, JSNum.div_nan_left,
      JSNum.max_nan_right, JSNum.min_nan_right]
  have hrsb : (calculateDealScore 2024 { baseProperty with price := 0 } baseNeighborhood
      none).rentStabilizationBonus =
      calculateRentStabilizationBonusValue 2024 { baseProperty with price := 0 }
        baseNeighborhood := rfl
  have htot : (calculateDealScore 2024 { baseProperty with price := 0 } baseNeighborhood
      none).totalScore =
      JSNum.min (.fin 100) (JSNum.max (.fin 0)
        (((((JSNum.fin (calculatePriceAdvantage { baseProperty with price := 0 }
                baseNeighborhood)).add
              (.fin (calculateSizeAdvantage { baseProperty with price := 0 }
                baseNeighborhood))).add
            ((JSNum.fin (calculateAgeAdvantage 2024 { baseProperty with price := 0 }
                baseNeighborhood)).add
              (calculateRentStabilizationBonusValue 2024 { baseProperty with price := 0 }
                baseNeighborhood))).add
          (.fin (calculateLocationBonus baseNeighborhood))).add
          (.fin (calculateMarketTimingBonus baseNeighborhood)))) := rfl
  rw [hrsb0] at htot
  simp only [JSNum.add_fin, JSNum.add_nan_right, JSNum.add_nan_left,
    JSNum.max_nan_right, JSNum.min_nan_right] at htot
  refine ⟨htot, by rw [hrsb, hrsb0], ?_⟩
  rintro ⟨q, hq, -, -⟩
  rw [htot] at hq
  exact JSNum.noConfusion hq

/-- C1 (amended: the property price must be nonzero, the one case the
counterexample forces out): the total score is a finite value in [0,100]
and each sub-score lies in its documented range: priceAdvantage in
[0,40], sizeAdvantage in [0,15], ageAdvantage in [0,15],
rentStabilizationBonus finite in [0,10], locationBonus in [0,10],
marketTimingBonus in [0,10]. -/
theorem C1_total_and_subscores_in_range (currentYear : ℤ) (p : PropertyMetrics)
    (n : NeighborhoodData) (np : Option (List PropertyMetrics)) (hp : p.price ≠ 0) :
    (∃ q : ℚ, (calculateDealScore currentYear p n np).totalScore = .fin q ∧
      0 ≤ q ∧ q ≤ 100) ∧
    (0 ≤ (calculateDealScore currentYear p n np).priceAdvantage ∧
      (calculateDealScore currentYear p n np).priceAdvantage ≤ 40) ∧
    (0 ≤ (calculateDealScore currentYear p n np).sizeAdvantage ∧
      (calculateDealScore currentYear p n np).sizeAdvantage ≤ 15) ∧
    (0 ≤ (calculateDealScore currentYear p n np).ageAdvantage ∧
      (calculateDealScore currentYear p n np).ageAdvantage ≤ 15) ∧
    (∃ b : ℚ, (calculateDealScore currentYear p n np).rentStabilizationBonus = .fin b ∧
      0 ≤ b ∧ b ≤ 10) ∧
    (0 ≤ (calculateDealScore currentYear p n np).locationBonus ∧
      (calculateDealScore currentYear p n np).locationBonus ≤ 10) ∧
    (0 ≤ (calculateDealScore currentYear p n np).marketTimingBonus ∧
      (calculateDealScore currentYear p n np).marketTimingBonus ≤ 10) := by
  have hrsb : (calculateDealScore currentYear p n np).rentStabilizationBonus =
      calculateRentStabilizationBonusValue currentYear p n := rfl
  have hrsb0 : calculateRentStabilizationBonusValue currentYear p n = .fin 0 :=
    bonusValue_zero_of_price_ne _ _ _ hp
  have hpa : (calculateDealScore currentYear p n np).priceAdvantage =
      calculatePriceAdvantage p n := rfl
  have hsa : (calculateDealScore currentYear p n np).sizeAdvantage =
      calculateSizeAdvantage p n := rfl
  have haa : (calculateDealScore currentYear p n np).ageAdvantage =
      calculateAgeAdvantage currentYear p n := rfl
  have hlb : (calculateDealScore currentYear p n np).locationBonus =
      calculateLocationBonus n := rfl
  have hmb : (calculateDealScore currentYear p n np).marketTimingBonus =
      calculateMarketTimingBonus n := rfl
  have htot : (calculateDealScore currentYear p n np).totalScore =
      JSNum.min (.fin 100) (JSNum.max (.fin 0)
        (((((JSNum.fin (calculatePriceAdvantage p n)).add
              (.fin (calculateSizeAdvantage p n))).add
            ((JSNum.fin (calculateAgeAdvantage currentYear p n)).add
              (calculateRentStabilizationBonusValue currentYear p n))).add
          (.fin (calculateLocationBonus n))).add
          (.fin (calculateMarketTimingBonus n)))) := rfl
  rw [hrsb0] at htot
  simp only [JSNum.add_fin, JSNum.max_fin, JSNum.min_fin] at htot
  refine ⟨⟨_, htot, le_min (by norm_num) (le_max_left 0 _), min_le_left _ _⟩,
    ?_, ?_, ?_, ⟨0, by rw [hrsb, hrsb0], le_refl 0, by norm_num⟩, ?_, ?_⟩
  · rw [hpa]
    unfold calculatePriceAdvantage
    exact priceAdvantageStep_bounds _
  · rw [hsa]
    exact sizeAdvantage_bounds p n
  · rw [haa]
    exact ageAdvantage_bounds currentYear p n
  · rw [hlb]
    exact locationBonus_bounds n
  · rw [hmb]
    exact marketTimingBonus_bounds n

theorem C1_witness :
    (∃ q : ℚ, (calculateDealScore 2024 baseProperty baseNeighborhood none).totalScore = .fin q ∧
      0 ≤ q ∧ q ≤ 100) ∧
    0 ≤ (calculateDealScore 2024 baseProperty baseNeighborhood none).priceAdvantage :=
  ⟨(C1_total_and_subscores_in_range 2024 baseProperty baseNeighborhood none (by decide)).1,
   (C1_total_and_subscores_in_range 2024 baseProperty baseNeighborhood none (by decide)).2.1.1⟩

/-- C5 counterexample: with market rent 0 (an eligible construction year)
annualValue / marketRent is 0/0 = NaN and the clamp propagates it, so
boostScore is NaN, not 0; the claim "boostScore is 0 for every input"
fails at this input.  (The claimed consequence for calculateDealScore
fails likewise at price 0, see C1_counterexample.) -/
theorem C5_counterexample :
    (calculateRentStabilizationBoost 2024 1960 0 (0.05 + 0.034)).boostScore = JSNum.nan ∧
    (calculateRentStabilizationBoost 2024 1960 0 (0.05 + 0.034)).boostScore ≠ JSNum.fin 0 := by
  have h : (calculateRentStabilizationBoost 2024 1960 0 (0.05 + 0.034)).boostScore
      = JSNum.nan := by
    norm_num [calculateRentStabilizationBoost, checkRentCap_isEligible,
      checkRentCap_maxIncrease, JSNum.div_fin_zero, JSNum.mul_nan_left,
      JSNum.max_nan_right, JSNum.min_nan_right]
  refine ⟨h, ?_⟩
  rw [h]
  exact fun hc => JSNum.noConfusion hc

/-- C5 (amended: the market rent, respectively the property price, must
be nonzero): the module's volatility benefit 0.08 - (5.0 + 3.4)/100 is
negative, so calculateRentStabilizationBoost returns boostScore 0 for
every construction year, every nonzero market rent and every assumed
increase rate, and calculateDealScore's rentStabilizationBonus is 0 for
every property with nonzero price. -/
theorem C5_boost_always_zero (cy yb : ℤ) (rent rate : ℚ) (hrent : rent ≠ 0)
    (cy2 : ℤ) (p : PropertyMetrics) (n : NeighborhoodData)
    (np : Option (List PropertyMetrics)) (hp : p.price ≠ 0) :
    marketVolatilityPremium - (5.0 + CURRENT_INFLATION_RATE) / 100 < 0 ∧
    (calculateRentStabilizationBoost cy yb rent rate).boostScore = .fin 0 ∧
    (calculateDealScore cy2 p n np).rentStabilizationBonus = .fin 0 := by
  refine ⟨by norm_num [marketVolatilityPremium, CURRENT_INFLATION_RATE],
    boost_zero_of_rent_ne cy yb rent rate hrent, ?_⟩
  have h : (calculateDealScore cy2 p n np).rentStabilizationBonus =
      calculateRentStabilizationBonusValue cy2 p n := rfl
  rw [h]
  exact bonusValue_zero_of_price_ne _ _ _ hp

theorem C5_witness :
    (calculateRentStabilizationBoost 2024 1960 1000 0.084).boostScore = .fin 0 ∧
    (calculateDealScore 2024 baseProperty baseNeighborhood none).rentStabilizationBonus
      = .fin 0 :=
  ⟨(C5_boost_always_zero 2024 1960 1000 0.084 (by norm_num) 2024 baseProperty
      baseNeighborhood none (by decide)).2.1,
   (C5_boost_always_zero 2024 1960 1000 0.084 (by norm_num) 2024 baseProperty
      baseNeighborhood none (by decide)).2.2⟩

/-- C6 counterexample: a caller-supplied inflation rate of exactly 0 is
falsy in JavaScript, so `inflationRate || CURRENT_INFLATION_RATE` falls
back to the default 3.4 and the increase percentage is 8.4, not
5.0 + 0 = 5.0 as the claim requires for r = 0. -/
theorem C6_counterexample :
    (calculateMaxRentIncrease 2024 1000 1960 (some 0)).increasePercentage = 8.4 ∧
    (8.4 : ℚ) ≠ 5.0 + 0 := by
  constructor
  · norm_num [calculateMaxRentIncrease, checkRentCap_isEligible, CURRENT_INFLATION_RATE]
  · norm_num

/-- C6 (amended: the supplied rate must be nonzero, the one case the
counterexample forces out): for every eligible property and every
NONZERO supplied rate r, the rate overrides the default:
increasePercentage = 5.0 + r, maxIncrease = currentRent * ((5.0+r)/100),
maxNewRent = currentRent + maxIncrease. -/
theorem C6_supplied_rate_used (currentYear : ℤ) (currentRent : ℚ) (yearBuilt : ℤ)
    (r : ℚ) (hr : r ≠ 0) (helig : 15 ≤ currentYear - yearBuilt) :
    calculateMaxRentIncrease currentYear currentRent yearBuilt (some r) =
      { increasePercentage := 5.0 + r
        maxIncrease := currentRent * ((5.0 + r) / 100)
        maxNewRent := currentRent + currentRent * ((5.0 + r) / 100)
        isEligible := true } := by
  have hd : decide (currentYear - yearBuilt ≥ 15) = true := decide_eq_true helig
  simp [calculateMaxRentIncrease, checkRentCap_isEligible, hd, hr]

theorem C6_witness :
    calculateMaxRentIncrease 2024 1000 1960 (some 2) =
      { increasePercentage := 5.0 + 2
        maxIncrease := 1000 * ((5.0 + 2) / 100)
        maxNewRent := 1000 + 1000 * ((5.0 + 2) / 100)
        isEligible := true } :=
  C6_supplied_rate_used 2024 1000 1960 2 (by norm_num) (by decide)

/-- C7 counterexample: `if (neighborhood.crimeRate)` is a JavaScript
truthiness test, so a PRESENT crime rate of 0 is skipped exactly like an
absent one: the two neighborhoods produce the SAME location score (both
5), not scores differing by the claimed +2 crime adjustment. -/
theorem C7_counterexample :
    locationScoreRaw { baseNeighborhood with crimeRate := some 0 } =
      locationScoreRaw baseNeighborhood ∧
    ¬ (locationScoreRaw { baseNeighborhood with crimeRate := some 0 } =
        locationScoreRaw baseNeighborhood + 2) ∧
    calculateLocationBonus { baseNeighborhood with crimeRate := some 0 } =
      calculateLocationBonus baseNeighborhood := by
  refine ⟨by norm_num [locationScoreRaw, baseNeighborhood], ?_,
    by norm_num [calculateLocationBonus, locationScoreRaw, baseNeighborhood]⟩
  intro h
  rw [show locationScoreRaw { baseNeighborhood with crimeRate := some 0 } = 5 from by
      norm_num [locationScoreRaw, baseNeighborhood],
    show locationScoreRaw baseNeighborhood = 5 from by
      norm_num [locationScoreRaw, baseNeighborhood]] at h
  norm_num at h

/-- C7 (amended: a present crime rate influences the score only when
NONZERO; a present 0 is treated exactly like an absent field, because the
source gates the block on JavaScript truthiness): for a present nonzero
value v the pre-clamp location score exceeds the absent-field score by
exactly the crime adjustment (+2 for v at most 20, +1 for v at most 40,
else 0), for a present v = 0 the two scores are equal, and the returned
bonus is the pre-clamp score clamped to [0,10]. -/
theorem C7_crime_zero_like_absent (n : NeighborhoodData) (v : ℚ) (hv : n.crimeRate = some v) :
    (v ≠ 0 → locationScoreRaw n =
      locationScoreRaw { n with crimeRate := none } +
        (if v ≤ 20 then 2 else if v ≤ 40 then 1 else 0)) ∧
    (v = 0 → locationScoreRaw n = locationScoreRaw { n with crimeRate := none }) ∧
    calculateLocationBonus n = Min.min 10 (Max.max 0 (locationScoreRaw n)) := by
  obtain ⟨mps, mp, asq, abd, abt, ayb, par, ry, ws, ts, cr, sr⟩ := n
  cases hv
  refine ⟨?_, ?_, rfl⟩
  · intro hv0
    simp only [locationScoreRaw]
    rw [if_neg hv0]
    split_ifs <;> ring
  · intro hv0
    subst hv0
    simp only [locationScoreRaw]
    norm_num

theorem C7_witness :
    locationScoreRaw { baseNeighborhood with crimeRate := some 10 } =
      locationScoreRaw baseNeighborhood + 2 := by
  have h := (C7_crime_zero_like_absent { baseNeighborhood with crimeRate := some 10 } 10
    rfl).1 (by norm_num)
  have h2 : ({ { baseNeighborhood with crimeRate := some 10 } with crimeRate := none } :
      NeighborhoodData) = baseNeighborhood := rfl
  rw [h2] at h
  rw [h]
  norm_num

/-- C8: calculateRentStabilizationBoost never reads its third parameter,
so two calls differing only in the increase-rate assumption return the
same boostScore; for nonzero market rent that score equals the clamp
min(20, max(0, volatilityBenefit * 100)) with the module's fixed
volatility benefit 0.08 - (5.0 + 3.4)/100 (which is 0 after clamping). -/
theorem C8_boost_independent_of_rate :
    ∀ (cy yb : ℤ) (rent r₁ r₂ : ℚ),
      (calculateRentStabilizationBoost cy yb rent r₁).boostScore =
        (calculateRentStabilizationBoost cy yb rent r₂).boostScore ∧
      (rent ≠ 0 →
        (calculateRentStabilizationBoost cy yb rent r₁).boostScore =
          .fin (Min.min 20 (Max.max 0
            ((marketVolatilityPremium - (5.0 + CURRENT_INFLATION_RATE) / 100) * 100)))) := by
  intro cy yb rent r₁ r₂
  refine ⟨rfl, fun h => ?_⟩
  rw [boost_zero_of_rent_ne _ _ _ _ h]
  norm_num [marketVolatilityPremium, CURRENT_INFLATION_RATE, min_def, max_def]

theorem C8_witness :
    (calculateRentStabilizationBoost 2024 1960 1000 1).boostScore =
      (calculateRentStabilizationBoost 2024 1960 1000 2).boostScore ∧
    (calculateRentStabilizationBoost 2024 1960 1000 1).boostScore =
      .fin (Min.min 20 (Max.max 0
        ((marketVolatilityPremium - (5.0 + CURRENT_INFLATION_RATE) / 100) * 100))) :=
  ⟨(C8_boost_independent_of_rate 2024 1960 1000 1 2).1,
   (C8_boost_independent_of_rate 2024 1960 1000 1 2).2 (by norm_num)⟩

/-- C9: for every input the breakdown sequence has exactly five entries
in the fixed order price advantage, size/layout, age + rent stabilization
(one combined entry), location/amenities, market timing, and the first
two entries carry exactly the price-advantage and size-advantage scores
(the positional contract generateInvestmentRecommendation relies on). -/
theorem C9_breakdown_fixed_order (cy : ℤ) (p : PropertyMetrics) (n : NeighborhoodData)
    (np : Option (List PropertyMetrics)) :
    ∃ e₁ e₂ e₃ e₄ e₅ : BreakdownEntry,
      (calculateDealScore cy p n np).breakdown = [e₁, e₂, e₃, e₄, e₅] ∧
      e₁.component = "Price Advantage" ∧
      e₂.component = "Size & Layout" ∧
      e₃.component = "Age & Rent Stabilization" ∧
      e₄.component = "Location & Amenities" ∧
      e₅.component = "Market Timing" ∧
      e₁.score = .fin ((calculateDealScore cy p n np).priceAdvantage) ∧
      e₂.score = .fin ((calculateDealScore cy p n np).sizeAdvantage) ∧
      e₃.score = (JSNum.fin ((calculateDealScore cy p n np).ageAdvantage)).add
        ((calculateDealScore cy p n np).rentStabilizationBonus) :=
  ⟨_, _, _, _, _, rfl, rfl, rfl, rfl, rfl, rfl, rfl, rfl, rfl⟩

/-- C10 (the spec requires baths = 0 to mean "no data, no adjustment",
but the source divides anyway): with beds = 3 and baths = 0 the bed/bath
ratio is +Infinity, the `> 2` comparison is true and the layout term
subtracts 1, so the size advantage is 8.5 (base 7.5, +2 for the size
ratio, -1 from the layout term) instead of the claimed no-adjustment
value 9.5. -/
theorem C10_bath_zero_layout_penalty :
    calculateSizeAdvantage { baseProperty with price := 500000, sqft := 1500, baths := 0 }
        { baseNeighborhood with avgSqft := 1500 } = 8.5 ∧
    (8.5 : ℚ) ≠ 7.5 + 2 := by
  constructor
  · norm_num [calculateSizeAdvantage, JSNum.div_fin, JSNum.div_fin_zero, JSNum.ge,
      JSNum.gt, JSNum.le_fin_fin, JSNum.le_fin_pinf, JSNum.le_pinf_fin,
      JSNum.lt_fin_pinf, baseProperty, baseNeighborhood, min_def, max_def]
  · norm_num
